import Mathlib

/-!
Shallow embedding of `datadog_checks/base/utils/db/utils.py`: the
submission-transformer factory (`create_submission_transformer`,
`create_extra_transformer`) and the host resolver (`resolve_db_host`).
Python dicts are modelled as association lists whose lookup returns the
first matching key; `dict.update` follows Python semantics (the argument
dict's entries overwrite the receiver's on key conflict, keeping the
receiver's ordering for existing keys and appending fresh keys).
-/

/-- A Python dict with string keys, as an association list. -/
abbrev Dict (α : Type) : Type := List (String × α)

/-- Lookup of a key in a dict: the first matching entry wins. -/
def Dict.get {α : Type} : Dict α → String → Option α
  | [], _ => none
  | (k, v) :: rest, key => if key = k then some v else Dict.get rest key

/-- Python `d1.update(d2)`: entries of `d2` overwrite those of `d1` on key
conflict, entries of `d1` keep their position, and keys only in `d2` are
appended. -/
def Dict.update {α : Type} (d1 d2 : Dict α) : Dict α :=
  (d1.map fun p => (p.1, (Dict.get d2 p.1).getD p.2)) ++
    (d2.filter fun p => (Dict.get d1 p.1).isNone)

theorem Dict.get_append {α : Type} (a b : Dict α) (k : String) :
    Dict.get (a ++ b) k =
      match Dict.get a k with
      | some v => some v
      | none => Dict.get b k := by
  induction a with
  | nil => simp [Dict.get]
  | cons p rest ih =>
    obtain ⟨k', v'⟩ := p
    by_cases h : k = k' <;> simp [Dict.get, h, ih]

theorem Dict.get_map_val {α : Type} (g : String → α → α) (d : Dict α) (k : String) :
    Dict.get (d.map fun p => (p.1, g p.1 p.2)) k = (Dict.get d k).map (g k) := by
  induction d with
  | nil => rfl
  | cons p rest ih =>
    obtain ⟨k', v'⟩ := p
    by_cases h : k = k' <;> simp [Dict.get, h, ih]

theorem Dict.get_filter_key {α : Type} (q : String → Bool) (d : Dict α) (k : String) :
    Dict.get (d.filter fun p => q p.1) k =
      if q k then Dict.get d k else none := by
  induction d with
  | nil => simp [Dict.get]
  | cons p rest ih =>
    obtain ⟨k', v'⟩ := p
    by_cases h : k = k'
    · subst h
      by_cases hq : q k <;> simp [Dict.get, hq, ih]
    · by_cases hq : q k' <;> simp [Dict.get, h, hq, ih]

/-- Lookup after a Python-style update: the argument dict wins on conflict. -/
theorem Dict.get_update {α : Type} (d1 d2 : Dict α) (k : String) :
    Dict.get (Dict.update d1 d2) k =
      match Dict.get d2 k with
      | some v => some v
      | none => Dict.get d1 k := by
  unfold Dict.update
  rw [Dict.get_append, Dict.get_map_val (fun key v => (Dict.get d2 key).getD v),
    Dict.get_filter_key (fun key => (Dict.get d1 key).isNone)]
  cases h1 : Dict.get d1 k <;> cases h2 : Dict.get d2 k <;> simp [h1, h2]

/-- One invocation of a submission operation `(*args, **kwargs)`: the
positional arguments and the keyword arguments it receives. -/
structure Call (α : Type) where
  args : List α
  kwargs : Dict α
deriving DecidableEq, Repr

/-- Embedding of `create_submission_transformer(submit_method)`. Stage 1
(`get_transformer`) receives the registry of sibling transformers, the
creation-time positional arguments and the keyword modifiers; stage 2
(`transformer`) receives a source map, the call-time positional arguments
and the call-time keyword arguments, performs `kwargs.update(modifiers)` on
its local keyword dict, and invokes the bound submission operation on
`chain(creation_args, call_args)` and the updated keyword dict. The
submission operation is a parameter; its result is the transformer's
result. -/
def create_submission_transformer {α σ τ μ : Type} (submit_method : Call α → σ)
    (_transformers : τ) (creation_args : List α) (modifiers : Dict α)
    (_sources : μ) (call_args : List α) (kwargs : Dict α) : σ :=
  let kwargs := Dict.update kwargs modifiers
  submit_method ⟨creation_args ++ call_args, kwargs⟩

/-- Instantiation of the submission operation with a recorder that returns
the list of calls it receives, so an invocation's submission calls are its
trace. -/
def submissionTrace {α τ μ : Type} (transformers : τ) (creation_args : List α)
    (modifiers : Dict α) (sources : μ) (call_args : List α) (kwargs : Dict α) :
    List (Call α) :=
  create_submission_transformer (fun c => [c]) transformers creation_args modifiers
    sources call_args kwargs

/-- The closed-over state of a produced stage-2 transformer: the
creation-time positional arguments and the keyword modifiers fixed at
stage 1. -/
structure TransformerState (α : Type) where
  creation_args : List α
  modifiers : Dict α
deriving DecidableEq, Repr

/-- One stage-2 invocation with the closure state passed explicitly: the body
reads `creation_args` and `modifiers`, rebinds only its local `kwargs`
dict, and hands back the closure state it was given. -/
def transformer_step {α σ μ : Type} (submit_method : Call α → σ)
    (st : TransformerState α) (_sources : μ) (call_args : List α)
    (kwargs : Dict α) : σ × TransformerState α :=
  let kwargs := Dict.update kwargs st.modifiers
  (submit_method ⟨st.creation_args ++ call_args, kwargs⟩, st)

/-- A sequence of stage-2 invocations threaded through the closure state,
returning the final closure state. -/
def run_transformer {α σ μ : Type} (submit_method : Call α → σ)
    (st : TransformerState α) : List (μ × List α × Dict α) → TransformerState α
  | [] => st
  | (sources, call_args, kwargs) :: rest =>
      run_transformer submit_method
        (transformer_step submit_method st sources call_args kwargs).2 rest

/-- C1 (counterexample): the claim that call-time keyword arguments take
precedence over creation-time modifiers is false: with modifier
`tags ↦ 1` and call-time keyword `tags ↦ 2`, the keyword dict passed to
the submission operation maps `tags` to the modifier value `1`, not to the
call-time value `2`, because the source performs `kwargs.update(modifiers)`. -/
theorem call_time_precedence_counterexample :
    Dict.get (create_submission_transformer (fun c : Call Nat => c) () []
        [("tags", 1)] () [] [("tags", 2)]).kwargs "tags" = some 1 ∧
      ¬ Dict.get (create_submission_transformer (fun c : Call Nat => c) () []
        [("tags", 1)] () [] [("tags", 2)]).kwargs "tags" = some 2 := by
  constructor
  · rfl
  · decide

/-- C1 (amended): for every transformer produced by the factory, when the
stage-2 transformer is invoked with call-time keyword arguments that share
a key with the creation-time modifiers, the keyword arguments passed to the
bound submission operation have the creation-time modifier value for that
key (creation-time modifiers take precedence over call-time keyword
arguments on conflict). -/
theorem submission_kwargs_modifier_precedence {α τ μ : Type}
    (transformers : τ) (creation_args : List α) (modifiers : Dict α)
    (sources : μ) (call_args : List α) (kwargs : Dict α) (k : String) (v : α)
    (h : Dict.get modifiers k = some v) :
    Dict.get (create_submission_transformer (fun c => c) transformers
        creation_args modifiers sources call_args kwargs).kwargs k = some v := by
  simp [create_submission_transformer, Dict.get_update, h]

/-- Witness for C1 (amended) at a concrete conflicting key. -/
theorem submission_kwargs_modifier_precedence_witness :
    Dict.get [("tags", (1 : Nat))] "tags" = some 1 ∧
      Dict.get (create_submission_transformer (fun c : Call Nat => c) () []
        [("tags", 1)] () [] [("tags", 2)]).kwargs "tags" = some 1 :=
  ⟨by decide,
    submission_kwargs_modifier_precedence () [] [("tags", 1)] () [] [("tags", 2)]
      "tags" 1 (by decide)⟩

/-- C2: one invocation of the produced stage-2 transformer performs exactly
one call of the bound submission operation, whose positional arguments are
the creation-time arguments followed by the call-time arguments, in that
order (and whose keyword dict is the call-time dict updated by the
modifiers). -/
theorem create_submission_transformer_calls_once {α σ τ μ : Type}
    (submit_method : Call α → σ) (transformers : τ) (creation_args : List α)
    (modifiers : Dict α) (sources : μ) (call_args : List α) (kwargs : Dict α) :
    create_submission_transformer submit_method transformers creation_args
        modifiers sources call_args kwargs =
      submit_method ⟨creation_args ++ call_args, Dict.update kwargs modifiers⟩ ∧
    submissionTrace transformers creation_args modifiers sources call_args kwargs =
      [⟨creation_args ++ call_args, Dict.update kwargs modifiers⟩] :=
  ⟨rfl, rfl⟩

/-- C7: the closed-over creation-time arguments and modifiers are never
mutated by stage-2 invocations: after any sequence of invocations with
arbitrary call-time arguments the closure state equals its value at
construction, and each single invocation hands the closure state back
unchanged. -/
theorem transformer_closure_state_immutable {α σ μ : Type}
    (submit_method : Call α → σ) (st : TransformerState α)
    (invocations : List (μ × List α × Dict α)) :
    run_transformer submit_method st invocations = st ∧
    ∀ (sources : μ) (call_args : List α) (kwargs : Dict α),
      (transformer_step submit_method st sources call_args kwargs).2 = st := by
  refine ⟨?_, fun _ _ _ => rfl⟩
  induction invocations with
  | nil => rfl
  | cons p rest ih =>
    obtain ⟨sources, call_args, kwargs⟩ := p
    simpa [run_transformer, transformer_step] using ih

/-- A Python exception raised by a transformer invocation: wrong call arity
or a missing source-map key. -/
inductive PyErr : Type
  | typeError : PyErr
  | keyError : String → PyErr
deriving DecidableEq, Repr

/-- Embedding of `create_extra_transformer(column_transformer, source=None)`.
Callables use the variadic convention `(sources, *args, **kwargs)`. When
`source` is truthy (neither `None` nor the empty string), the produced
wrapper takes no extra positional arguments, looks `source` up in the
source map, and calls the wrapped transformer with that value as the single
positional argument plus the passed-through source map and keyword
arguments; a missing key raises `KeyError`. Otherwise the wrapped
transformer itself is returned. -/
def create_extra_transformer {α σ : Type}
    (column_transformer : Dict α → List α → Dict α → Except PyErr σ) :
    Option String → Dict α → List α → Dict α → Except PyErr σ
  | some s =>
      if s = "" then
        -- the source's test is truthiness: an empty string is falsy
        column_transformer
      else
        fun sources args kwargs =>
          match args with
          | [] =>
              match Dict.get sources s with
              | some v => column_transformer sources [v] kwargs
              | none => .error (.keyError s)
          | _ :: _ => .error .typeError
  | none => column_transformer

/-- C6: with a truthy reference name and a source map containing it, the
wrapper calls the wrapped transformer with exactly the source map's value
for that name as the positional value argument, plus the passed-through
source map and keyword arguments; and with no reference name the wrapper is
the wrapped transformer itself. -/
theorem create_extra_transformer_forwards_value {α σ : Type}
    (column_transformer : Dict α → List α → Dict α → Except PyErr σ)
    (s : String) (sources : Dict α) (v : α) (kwargs : Dict α)
    (hs : s ≠ "") (hv : Dict.get sources s = some v) :
    create_extra_transformer column_transformer (some s) sources [] kwargs =
      column_transformer sources [v] kwargs ∧
    create_extra_transformer column_transformer none = column_transformer := by
  refine ⟨?_, rfl⟩
  simp [create_extra_transformer, hs, hv]

/-- Witness for C6 at a concrete reference name and source map. -/
theorem create_extra_transformer_forwards_value_witness :
    ("value" ≠ "" ∧ Dict.get [("value", (7 : Nat))] "value" = some 7) ∧
      (create_extra_transformer (fun sources args kwargs => .ok (sources, args, kwargs))
          (some "value") [("value", (7 : Nat))] [] [] =
        Except.ok ([("value", (7 : Nat))], [7], []) ∧
      create_extra_transformer
          (fun sources args kwargs =>
            (.ok (sources, args, kwargs) : Except PyErr (Dict Nat × List Nat × Dict Nat)))
          none =
        fun sources args kwargs => .ok (sources, args, kwargs)) :=
  ⟨⟨by decide, by decide⟩,
    create_extra_transformer_forwards_value
      (fun sources args kwargs => .ok (sources, args, kwargs))
      "value" [("value", 7)] 7 [] (by decide) (by decide)⟩

/-- C10: the wrapper called with the empty string as the reference name
returns the wrapped transformer unchanged, exactly as when no reference
name is given, because the presence test is truthiness. -/
theorem create_extra_transformer_empty_source {α σ : Type}
    (column_transformer : Dict α → List α → Dict α → Except PyErr σ) :
    create_extra_transformer column_transformer (some "") = column_transformer ∧
    create_extra_transformer column_transformer (some "") =
      create_extra_transformer column_transformer none :=
  ⟨rfl, rfl⟩

/-- The name-resolution error `socket.gaierror`. -/
structure GaiError : Type where
  msg : String
deriving DecidableEq, Repr

/-- The external collaborators of the host resolver: the agent identity
service `datadog_agent.get_hostname()` and the name-resolution service
`socket.gethostbyname`, which either yields an IP-address string or fails
with `gaierror`. -/
structure DnsEnv : Type where
  get_hostname : String
  gethostbyname : String → Except GaiError String

/-- The body of the `try` block of `resolve_db_host`: resolve the configured
host, resolve the agent hostname, return the agent hostname when the two
IPs are equal and the configured host otherwise; a `gaierror` from either
lookup propagates out of the body. -/
def resolve_try_body (env : DnsEnv) (host agent_hostname : String) :
    Except GaiError String :=
  match env.gethostbyname host with
  | .error e => .error e
  | .ok host_ip =>
    match env.gethostbyname agent_hostname with
    | .error e => .error e
    | .ok agent_ip =>
      if host_ip = agent_ip then
        .ok agent_hostname
      else
        .ok host

/-- Embedding of `resolve_db_host(host)`: fetch the agent hostname; return
it at once for a falsy host, `localhost` or `127.0.0.1`; otherwise run the
DNS comparison, catching `gaierror` by falling back to the agent
hostname. -/
def resolve_db_host (env : DnsEnv) (host : String) : Except GaiError String :=
  let agent_hostname := env.get_hostname
  if host = "" ∨ host = "localhost" ∨ host = "127.0.0.1" then
    .ok agent_hostname
  else
    match resolve_try_body env host agent_hostname with
    | .ok result => .ok result
    | .error _ => .ok agent_hostname

/-- C3: for a non-special host, when both DNS lookups succeed the resolver
returns the agent hostname if the two resolved IPs are equal and the
configured host unchanged if they differ. -/
theorem resolve_db_host_compare_ips (env : DnsEnv) (host hip aip : String)
    (hns : ¬(host = "" ∨ host = "localhost" ∨ host = "127.0.0.1"))
    (hh : env.gethostbyname host = .ok hip)
    (ha : env.gethostbyname env.get_hostname = .ok aip) :
    (hip = aip → resolve_db_host env host = .ok env.get_hostname) ∧
    (hip ≠ aip → resolve_db_host env host = .ok host) := by
  constructor <;> intro heq <;>
    simp [resolve_db_host, resolve_try_body, hns, hh, ha, heq]

/-- Test name-resolution service for the resolver witnesses: the agent host
and one internal alias share an IP, an external host has another one. -/
def testDns : String → Except GaiError String := fun h =>
  if h = "db.internal" then .ok "10.0.0.1"
  else if h = "agent" then .ok "10.0.0.1"
  else if h = "db.external" then .ok "10.0.0.2"
  else .error ⟨"gaierror"⟩

/-- Witness for C3: an alias of the agent resolves to the agent hostname, an
external host is returned unchanged. -/
theorem resolve_db_host_compare_ips_witness :
    resolve_db_host ⟨"agent", testDns⟩ "db.internal" = .ok "agent" ∧
    resolve_db_host ⟨"agent", testDns⟩ "db.external" = .ok "db.external" :=
  ⟨(resolve_db_host_compare_ips ⟨"agent", testDns⟩ "db.internal" "10.0.0.1" "10.0.0.1"
      (by decide) rfl rfl).1 rfl,
   (resolve_db_host_compare_ips ⟨"agent", testDns⟩ "db.external" "10.0.0.2" "10.0.0.1"
      (by decide) rfl rfl).2 (by decide)⟩

/-- C4: for a host that is empty, `localhost` or `127.0.0.1` the resolver
returns the agent hostname at once, and its result does not depend on the
name-resolution service at all. -/
theorem resolve_db_host_special_hosts (ah : String)
    (dns dnsOther : String → Except GaiError String) (host : String)
    (h : host = "" ∨ host = "localhost" ∨ host = "127.0.0.1") :
    resolve_db_host ⟨ah, dns⟩ host = .ok ah ∧
    resolve_db_host ⟨ah, dns⟩ host = resolve_db_host ⟨ah, dnsOther⟩ host := by
  constructor <;> simp [resolve_db_host, h]

/-- Witness for C4 at the loopback literal, under two name-resolution
services that disagree everywhere. -/
theorem resolve_db_host_special_hosts_witness :
    resolve_db_host ⟨"agent", fun _ => .ok "10.0.0.9"⟩ "127.0.0.1" = .ok "agent" ∧
    resolve_db_host ⟨"agent", fun _ => .ok "10.0.0.9"⟩ "127.0.0.1" =
      resolve_db_host ⟨"agent", fun _ => .error ⟨"gaierror"⟩⟩ "127.0.0.1" :=
  resolve_db_host_special_hosts "agent" (fun _ => .ok "10.0.0.9")
    (fun _ => .error ⟨"gaierror"⟩) "127.0.0.1" (by decide)

/-- C5: when resolution of the configured host fails with a name-resolution
error the resolver returns the agent hostname, and never surfaces an error
to the caller. -/
theorem resolve_db_host_dns_failure_fallback (env : DnsEnv) (host : String)
    (e : GaiError) (hh : env.gethostbyname host = .error e) :
    resolve_db_host env host = .ok env.get_hostname ∧
    ∀ e2 : GaiError, resolve_db_host env host ≠ .error e2 := by
  have h1 : resolve_db_host env host = .ok env.get_hostname := by
    by_cases hc : host = "" ∨ host = "localhost" ∨ host = "127.0.0.1"
    · simp [resolve_db_host, hc]
    · simp [resolve_db_host, resolve_try_body, hc, hh]
  exact ⟨h1, fun e2 => by simp [h1]⟩

/-- Witness for C5 at a unix-socket path under an always-failing
name-resolution service. -/
theorem resolve_db_host_dns_failure_fallback_witness :
    resolve_db_host ⟨"agent", fun _ => .error ⟨"gaierror"⟩⟩
        "/var/run/mysqld/mysqld.sock" = .ok "agent" ∧
    resolve_db_host ⟨"agent", fun _ => .error ⟨"gaierror"⟩⟩
        "/var/run/mysqld/mysqld.sock" ≠ .error ⟨"gaierror"⟩ :=
  ⟨(resolve_db_host_dns_failure_fallback ⟨"agent", fun _ => .error ⟨"gaierror"⟩⟩
      "/var/run/mysqld/mysqld.sock" ⟨"gaierror"⟩ rfl).1,
   (resolve_db_host_dns_failure_fallback ⟨"agent", fun _ => .error ⟨"gaierror"⟩⟩
      "/var/run/mysqld/mysqld.sock" ⟨"gaierror"⟩ rfl).2 ⟨"gaierror"⟩⟩

/-- C8: two calls of the resolver with the same host, under an agent
identity service and a name-resolution service with identical results,
return the same result. -/
theorem resolve_db_host_deterministic (e1 e2 : DnsEnv) (host : String)
    (hA : e1.get_hostname = e2.get_hostname)
    (hD : ∀ h, e1.gethostbyname h = e2.gethostbyname h) :
    resolve_db_host e1 host = resolve_db_host e2 host := by
  obtain ⟨ah1, dns1⟩ := e1
  obtain ⟨ah2, dns2⟩ := e2
  dsimp at hA hD
  subst hA
  have hfun : dns1 = dns2 := funext hD
  subst hfun
  rfl

/-- Witness for C8: two syntactically distinct but pointwise equal
name-resolution services give the same resolution. -/
theorem resolve_db_host_deterministic_witness :
    resolve_db_host ⟨"agent", testDns⟩ "db.external" =
      resolve_db_host
        ⟨"agent", fun h => if h = "" then testDns "" else testDns h⟩
        "db.external" :=
  resolve_db_host_deterministic ⟨"agent", testDns⟩
    ⟨"agent", fun h => if h = "" then testDns "" else testDns h⟩
    "db.external" rfl
    (fun h => by by_cases hc : h = "" <;> simp [hc])

/-- C9: for a non-special host, when the configured host resolves but the
agent hostname's own lookup fails with a name-resolution error, the single
fallback branch still returns the agent hostname. -/
theorem resolve_db_host_agent_lookup_failure (env : DnsEnv) (host hip : String)
    (e : GaiError)
    (hns : ¬(host = "" ∨ host = "localhost" ∨ host = "127.0.0.1"))
    (hh : env.gethostbyname host = .ok hip)
    (ha : env.gethostbyname env.get_hostname = .error e) :
    resolve_db_host env host = .ok env.get_hostname := by
  simp [resolve_db_host, resolve_try_body, hns, hh, ha]

/-- Test name-resolution service where the configured host resolves but the
agent hostname does not. -/
def testDnsAgentFails : String → Except GaiError String := fun h =>
  if h = "db.internal" then .ok "10.0.0.1" else .error ⟨"gaierror"⟩

/-- Witness for C9: the configured host resolves, the agent hostname does
not, and the agent hostname is returned. -/
theorem resolve_db_host_agent_lookup_failure_witness :
    resolve_db_host ⟨"agent", testDnsAgentFails⟩ "db.internal" = .ok "agent" :=
  resolve_db_host_agent_lookup_failure ⟨"agent", testDnsAgentFails⟩ "db.internal"
    "10.0.0.1" ⟨"gaierror"⟩ (by decide) rfl rfl

